import Mathlib

/-!
Shallow embedding of the Polymart trading bot core
(src/window_manager.py, src/strategy.py, src/config.py, src/trader.py,
src/backtester.py), with theorems settling the frozen claims.

Conventions of the embedding:
* Python floats carrying prices / percentages are modelled as rationals
  (the code only ever does +, -, *, comparisons on them).
* Timestamps are natural numbers counting seconds since an epoch that
  falls on an hour boundary, so `minute-of-hour = t / 60 % 60` matches
  `datetime.minute`.
* A Python dict used as a price map is an association list; `dict.get`
  is `List.find?`-based lookup (first binding wins, keys are unique in
  the source).
* `strftime("%Y%m%d_%H%M")` applied to a second-aligned window start is
  injective on the supported date range, so a window id is represented
  by the window-start timestamp itself.
* Fallible Python code (an uncaught exception) is `Except Unit`;
  `.error ()` marks a path on which the Python code would raise.
-/

/-- Price value attached to an asset in a snapshot: the live trader builds
dicts of the form `{"UP": p, "DOWN": 1 - p}`, while the backtester passes
bare floats; `trader._check_exit` handles both shapes with `isinstance`. -/
inductive PriceVal where
  | flat (p : ℚ)
  | options (up down : ℚ)
deriving DecidableEq

/-- A price snapshot: association list from asset symbol to price value. -/
abbrev Snapshot := List (String × PriceVal)

/-- Lookup in a snapshot (Python `prices.get(asset)`). -/
def lookupPrice (s : Snapshot) (a : String) : Option PriceVal :=
  (s.find? (fun kv => kv.1 == a)).map (fun kv => kv.2)

/-- Lookup in a flat price dict (Python `prices.get(asset)` on floats). -/
def getQ (s : List (String × ℚ)) (a : String) : Option ℚ :=
  (s.find? (fun kv => kv.1 == a)).map (fun kv => kv.2)

/-- View a flat price dict as a snapshot (backtester passes bare floats). -/
def flatSnapshot (s : List (String × ℚ)) : Snapshot :=
  s.map (fun kv => (kv.1, PriceVal.flat kv.2))

/-! ## Window manager (src/window_manager.py)

`WindowManager.__init__` stores `window_duration_minutes` without any
validation; the duration is passed to each function below as `d`.
Python raises `ZeroDivisionError` inside `get_current_window` when
`d = 0`; the `Nat` division of Lean totalises that case as `0`. -/

/-- `current_time.minute` for a timestamp in seconds. -/
def minuteOfHour (t : Nat) : Nat := t / 60 % 60

/-- `WindowManager.get_current_window`: round the minute down to the
nearest multiple of `d`, zero out seconds, return (start, end). -/
def get_current_window (d t : Nat) : Nat × Nat :=
  let minutes := minuteOfHour t / d * d
  let window_start := t / 3600 * 3600 + minutes * 60
  (window_start, window_start + d * 60)

/-- `WindowManager.get_time_remaining` (Nat subtraction models
`max(0, ...)`). -/
def get_time_remaining (d t : Nat) : Nat :=
  (get_current_window d t).2 - t

/-- `WindowManager.is_entry_eligible`. -/
def is_entry_eligible (d t max_remaining min_remaining : Nat) : Bool :=
  decide (min_remaining ≤ get_time_remaining d t) &&
  decide (get_time_remaining d t ≤ max_remaining)

/-- `WindowManager.get_window_id`: the window-start timestamp stands for
the string `window_start.strftime("%Y%m%d_%H%M")`, which is injective on
second-aligned starts. -/
def get_window_id (d t : Nat) : Nat :=
  (get_current_window d t).1

/-! ## Configuration (src/config.py) -/

/-- The slice of the configuration dict that the core components read. -/
structure TraderConfig where
  reference_assets : List String
  tradeable_assets : List String
  all_assets : List String
  zone_high_min : ℚ
  zone_high_max : ℚ
  zone_low_min : ℚ
  zone_low_max : ℚ
  laggard_up_entry_min : ℚ
  laggard_up_entry_max : ℚ
  laggard_down_entry_min : ℚ
  laggard_down_entry_max : ℚ
  exit_up_threshold : ℚ
  exit_down_threshold : ℚ
  stop_loss_pct : ℚ
  window_duration_minutes : Nat
  entry_window_max_remaining_seconds : Nat
  entry_window_min_remaining_seconds : Nat
  max_trades_per_window : Nat
  stake_size_usd : ℚ
deriving DecidableEq

/-- The values of `DEFAULT_CONFIG` for the fields above. -/
def default_config : TraderConfig where
  reference_assets := ["BTC", "ETH"]
  tradeable_assets := ["SOL", "XRP"]
  all_assets := ["BTC", "ETH", "SOL", "XRP"]
  zone_high_min := 0.75
  zone_high_max := 1.00
  zone_low_min := 0.00
  zone_low_max := 0.25
  laggard_up_entry_min := 0.00
  laggard_up_entry_max := 0.50
  laggard_down_entry_min := 0.50
  laggard_down_entry_max := 1.00
  exit_up_threshold := 0.90
  exit_down_threshold := 0.10
  stop_loss_pct := 0.05
  window_duration_minutes := 15
  entry_window_max_remaining_seconds := 300
  entry_window_min_remaining_seconds := 90
  max_trades_per_window := 1
  stake_size_usd := 1.0

/-- `Config._validate`: conjunction of the `assert` statements run at
construction time.  Note that `window_duration_minutes` is not examined
anywhere in `_validate`, and `WindowManager.__init__` stores it without
a check. -/
def config_validate (c : TraderConfig) : Bool :=
  decide (0 < c.exit_up_threshold) && decide (c.exit_up_threshold ≤ 1) &&
  decide (0 ≤ c.exit_down_threshold) && decide (c.exit_down_threshold < 1) &&
  decide (c.entry_window_min_remaining_seconds < c.entry_window_max_remaining_seconds) &&
  decide (c.zone_high_min < c.zone_high_max) &&
  decide (c.zone_low_min < c.zone_low_max) &&
  decide (2 ≤ c.reference_assets.length) &&
  decide (1 ≤ c.tradeable_assets.length)

/-! ## Strategy (src/strategy.py) -/

/-- The payload a `SignalResult` carries when a signal fired: in the
source all of these fields are `None` together (no signal) or set
together (signal), so the embedding packs the set-together case. -/
structure FiredSignal where
  signal : String
  asset : String
  group_config : String
  group_assets : List String
  group_prices : List (String × ℚ)
  laggard_price : ℚ
deriving DecidableEq

/-- `SignalResult`: `fired = none` is the all-`None` no-signal record. -/
structure SignalResult where
  fired : Option FiredSignal
  reason : String
deriving DecidableEq

/-- The all-`None` `SignalResult`. -/
def noSignal (r : String) : SignalResult := ⟨none, r⟩

/-- `EnhancedPolymarketStrategy._in_zone`. -/
def in_zone (v : ℚ) (zone : ℚ × ℚ) : Bool :=
  decide (zone.1 ≤ v) && decide (v ≤ zone.2)

/-- `EnhancedPolymarketStrategy._all_in_zone`. -/
def all_in_zone (prices : List (String × ℚ)) (zone : ℚ × ℚ) : Bool :=
  prices.all (fun p => in_zone p.2 zone)

/-- The UP price the strategy extracts per asset: `prices[a].get("UP", 0.5)`
for the dict shape, the bare value otherwise. -/
def upPriceOf : PriceVal → ℚ
  | .flat p => p
  | .options u _ => u

/-- The dict comprehension `{a: prices[a] for a in group_assets}` of
`_evaluate_group`; `none` is the `KeyError` the Python code would raise
on a missing key. -/
def collect_group_prices (up : List (String × ℚ)) : List String → Option (List (String × ℚ))
  | [] => some []
  | a :: rest =>
    match getQ up a, collect_group_prices up rest with
    | some p, some ps => some ((a, p) :: ps)
    | _, _ => none

/-- `EnhancedPolymarketStrategy._evaluate_group`.  `up` is the `up_prices`
dict; a missing key means the Python code would raise `KeyError`, hence
`.error ()` (unreachable under the subset guard of `evaluate_signal`). -/
def evaluate_group (cfg : TraderConfig) (up : List (String × ℚ))
    (group_assets : List String) (laggard_asset : String) (group_name : String) :
    Except Unit SignalResult :=
  match collect_group_prices up group_assets, getQ up laggard_asset with
  | some group_prices, some laggard_price =>
    if all_in_zone group_prices (cfg.zone_high_min, cfg.zone_high_max) &&
       in_zone laggard_price (cfg.laggard_up_entry_min, cfg.laggard_up_entry_max) then
      .ok ⟨some ⟨"UP", laggard_asset, group_name, group_assets, group_prices, laggard_price⟩,
           "Group HIGH, Laggard LOW"⟩
    else if all_in_zone group_prices (cfg.zone_low_min, cfg.zone_low_max) &&
            in_zone laggard_price (cfg.laggard_down_entry_min, cfg.laggard_down_entry_max) then
      .ok ⟨some ⟨"DOWN", laggard_asset, group_name, group_assets, group_prices, laggard_price⟩,
           "Group LOW, Laggard HIGH"⟩
    else
      .ok (noSignal (group_name ++ ": No signal"))
  | _, _ => .error ()

/-- The `up_prices` dict of `evaluate_signal`, restricted to the assets
present in the snapshot (all required ones are, under the guard). -/
def build_up_prices (s : Snapshot) (required : List String) : List (String × ℚ) :=
  required.filterMap (fun a => (lookupPrice s a).map (fun v => (a, upPriceOf v)))

/-- `EnhancedPolymarketStrategy.evaluate_signal`: guard on required assets,
extract UP prices, try group G1 (reference + first tradeable, laggard =
second tradeable), then group G2 (reference + second tradeable, laggard =
first tradeable); first fired signal wins.  `.error ()` marks the
`IndexError` paths (`tradeable_assets[0]` / `[1]` on a short list). -/
def evaluate_signal (cfg : TraderConfig) (s : Snapshot) : Except Unit SignalResult :=
  let required := cfg.reference_assets ++ cfg.tradeable_assets
  if required.all (fun a => (lookupPrice s a).isSome) then
    let up := build_up_prices s required
    match cfg.tradeable_assets.get? 0, cfg.tradeable_assets.get? 1 with
    | some t0, some t1 =>
      match evaluate_group cfg up (cfg.reference_assets ++ [t0]) t1 "G1" with
      | .ok g1 =>
        if g1.fired.isSome then .ok g1
        else
          match evaluate_group cfg up (cfg.reference_assets ++ [t1]) t0 "G2" with
          | .ok g2 =>
            if g2.fired.isSome then .ok g2
            else .ok (noSignal "No valid signal condition")
          | .error e => .error e
      | .error e => .error e
    | _, _ => .error ()
  else
    .ok (noSignal "Missing prices")

/-- `EnhancedPolymarketStrategy.check_exit` (target-exit only): result is
(should_exit, reason). -/
def check_exit (cfg : TraderConfig) (side : String) (current_price : ℚ) :
    Bool × String :=
  if side == "UP" then
    if cfg.exit_up_threshold ≤ current_price then (true, "TARGET_HIT")
    else (false, "HOLDING")
  else if side == "DOWN" then
    if current_price ≤ cfg.exit_down_threshold then (true, "TARGET_HIT")
    else (false, "HOLDING")
  else (false, "HOLDING")

/-! ## Live trader (src/trader.py) -/

/-- `trader.Position`. -/
structure Position where
  window_id : Option Nat
  asset : String
  side : String
  entry_time : Nat
  entry_price : ℚ
  group_config : String
  group_assets : List String
  group_prices : List (String × ℚ)
  stake_size : ℚ
  market_id : String
  stop_loss_price : ℚ
deriving DecidableEq

/-- `EnhancedLiveTrader._calculate_stop_loss`. -/
def calculate_stop_loss (stop_loss_pct : ℚ) (side : String) (entry_price : ℚ) : ℚ :=
  if side == "UP" then max 0 (entry_price - stop_loss_pct)
  else min 1 (entry_price + stop_loss_pct)

/-- `EnhancedLiveTrader._check_stop_loss`. -/
def check_stop_loss (pos : Position) (current_price : ℚ) : Bool :=
  if pos.side == "UP" then decide (current_price ≤ pos.stop_loss_price)
  else decide (pos.stop_loss_price ≤ current_price)

/-- The current price `EnhancedLiveTrader._check_exit` extracts from the
looked-up snapshot entry: side-specific option price for the dict shape
(`.get("UP", 0.5)` / `.get("DOWN", 0.5)`; both keys are always present in
the shapes the bot builds), the bare value otherwise. -/
def live_current_price (side : String) : PriceVal → ℚ
  | .options u d => if side == "UP" then u else d
  | .flat p => p

/-- The decision part of `EnhancedLiveTrader._check_exit`: `none` means
the position is kept; `some (reason, price)` means `_exit_position` is
called with that reason at that price.  Stop-loss is checked first, then
the strategy target-exit. -/
def live_exit_decision (cfg : TraderConfig) (pos : Position) (prices : Snapshot) :
    Option (String × ℚ) :=
  match lookupPrice prices pos.asset with
  | none => none
  | some pv =>
    let current_price := live_current_price pos.side pv
    if check_stop_loss pos current_price then some ("STOP_LOSS", current_price)
    else
      match check_exit cfg pos.side current_price with
      | (true, reason) => some (reason, current_price)
      | (false, _) => none

/-- The final settlement price of `EnhancedLiveTrader._settle_position`:
the feed price for the asset if available, otherwise the side-dependent
fallback `1.0` for UP / `0.0` for DOWN ("Simplified settlement"). -/
def live_settle_price (pos : Position) (feed : List (String × ℚ)) : ℚ :=
  match getQ feed pos.asset with
  | some p => p
  | none => if pos.side == "UP" then 1 else 0

/-- One row of the trade log written by `EnhancedLiveTrader._exit_position`
(the fields the claims are about). -/
structure TradeRecord where
  window_id : Option Nat
  asset : String
  side : String
  entry_time : Nat
  exit_time : Nat
  entry_price : ℚ
  exit_price : ℚ
  exit_reason : String
  pnl_pct : ℚ
  pnl_usd : ℚ
  stake_size : ℚ
  outcome : String
  cumulative_pnl : ℚ
  trade_number : Nat
deriving DecidableEq

/-- The P&L computation of `EnhancedLiveTrader._exit_position`:
`(pnl_pct, pnl_usd)`. -/
def live_pnl (pos : Position) (exit_price : ℚ) : ℚ × ℚ :=
  let pnl_pct :=
    if pos.side == "UP" then exit_price - pos.entry_price
    else pos.entry_price - exit_price
  (pnl_pct, pnl_pct * pos.stake_size)

/-- The trade record `EnhancedLiveTrader._exit_position` logs, given the
totals after it updated them. -/
def live_exit_record (pos : Position) (exit_time : Nat) (exit_price : ℚ)
    (reason : String) (total_trades : Nat) (total_pnl : ℚ) : TradeRecord :=
  let p := live_pnl pos exit_price
  { window_id := pos.window_id
    asset := pos.asset
    side := pos.side
    entry_time := pos.entry_time
    exit_time := exit_time
    entry_price := pos.entry_price
    exit_price := exit_price
    exit_reason := reason
    pnl_pct := p.1
    pnl_usd := p.2
    stake_size := pos.stake_size
    outcome := if 0 < p.2 then "WIN" else "LOSS"
    cumulative_pnl := total_pnl + p.2
    trade_number := total_trades + 1 }

/-- Mutable state of `EnhancedLiveTrader` (the fields the core loop
touches). -/
structure LiveState where
  current_position : Option Position
  current_window_id : Option Nat
  trades_this_window : Nat
  total_trades : Nat
  total_pnl : ℚ
  trade_log : List TradeRecord
deriving DecidableEq

/-- `EnhancedLiveTrader._exit_position` as a state transformer. -/
def live_exit_position (st : LiveState) (pos : Position) (exit_time : Nat)
    (exit_price : ℚ) (reason : String) : LiveState :=
  let p := live_pnl pos exit_price
  let rec_ := live_exit_record pos exit_time exit_price reason st.total_trades st.total_pnl
  { st with
    total_trades := st.total_trades + 1
    total_pnl := st.total_pnl + p.2
    trade_log := st.trade_log ++ [rec_]
    current_position := none }

/-- `EnhancedLiveTrader._settle_position`. -/
def live_settle_position (st : LiveState) (pos : Position) (t : Nat)
    (feed : List (String × ℚ)) (reason : String) : LiveState :=
  live_exit_position st pos t (live_settle_price pos feed) reason

/-- `EnhancedLiveTrader._check_exit` as a state transformer. -/
def live_check_exit_step (cfg : TraderConfig) (st : LiveState) (pos : Position)
    (t : Nat) (prices : Snapshot) : LiveState :=
  match live_exit_decision cfg pos prices with
  | some (reason, price) => live_exit_position st pos t price reason
  | none => st

/-- `EnhancedLiveTrader._check_entry` (+ `_enter_position`): guard on the
per-window counter and time eligibility, evaluate the strategy, open a
position when a signal fires. -/
def live_check_entry (cfg : TraderConfig) (st : LiveState) (t : Nat)
    (prices : Snapshot) : Except Unit LiveState :=
  if cfg.max_trades_per_window ≤ st.trades_this_window then .ok st
  else if ¬ (is_entry_eligible cfg.window_duration_minutes t
      cfg.entry_window_max_remaining_seconds
      cfg.entry_window_min_remaining_seconds) then .ok st
  else
    match evaluate_signal cfg prices with
    | .error e => .error e
    | .ok sig =>
      match sig.fired with
      | none => .ok st
      | some f =>
        .ok { st with
          current_position := some
            { window_id := st.current_window_id
              asset := f.asset
              side := f.signal
              entry_time := t
              entry_price := f.laggard_price
              group_config := f.group_config
              group_assets := f.group_assets
              group_prices := f.group_prices
              stake_size := cfg.stake_size_usd
              market_id := ""
              stop_loss_price := calculate_stop_loss cfg.stop_loss_pct f.signal f.laggard_price }
          trades_this_window := st.trades_this_window + 1 }

/-- `EnhancedLiveTrader._trading_cycle`: one polling tick at time `t`,
with `feed` the per-asset raw prices the data feed currently holds
(`get_latest_prices`, used both for settlement and for building the
UP/DOWN option-price snapshot). -/
def live_step (cfg : TraderConfig) (st : LiveState) (t : Nat)
    (feed : List (String × ℚ)) : Except Unit LiveState :=
  let wid := get_window_id cfg.window_duration_minutes t
  let st1 :=
    if st.current_window_id ≠ some wid then
      let st0 :=
        match st.current_position with
        | some p => live_settle_position st p t feed "WINDOW_EXPIRY"
        | none => st
      { st0 with current_window_id := some wid, trades_this_window := 0 }
    else st
  let prices : Snapshot := feed.map (fun kv => (kv.1, PriceVal.options kv.2 (1 - kv.2)))
  match st1.current_position with
  | none => live_check_entry cfg st1 t prices
  | some p => .ok (live_check_exit_step cfg st1 p t prices)

/-! ## Backtester (src/backtester.py) -/

/-- The backtester position dict (note: no stop-loss field is ever
created by `EnhancedBacktester._check_entry`). -/
structure BTPosition where
  window_id : Nat
  asset : String
  side : String
  group_config : String
  group_assets : List String
  entry_time : Nat
  entry_price : ℚ
  group_prices : List (String × ℚ)
  stake_size : ℚ
deriving DecidableEq

/-- `backtester.BacktestTrade` (the fields the claims are about). -/
structure BacktestTrade where
  trade_id : Nat
  window_id : Nat
  asset : String
  side : String
  entry_time : Nat
  entry_price : ℚ
  exit_time : Nat
  exit_price : ℚ
  exit_reason : String
  pnl_pct : ℚ
  pnl_usd : ℚ
  stake_size : ℚ
  outcome : String
deriving DecidableEq

/-- The P&L computation of `EnhancedBacktester._close_position`. -/
def bt_pnl (pos : BTPosition) (exit_price : ℚ) : ℚ × ℚ :=
  let pnl_pct :=
    if pos.side == "UP" then exit_price - pos.entry_price
    else pos.entry_price - exit_price
  (pnl_pct, pnl_pct * pos.stake_size)

/-- The `BacktestTrade` record `EnhancedBacktester._close_position`
appends, given the incremented trade counter. -/
def bt_close_record (pos : BTPosition) (exit_time : Nat) (exit_price : ℚ)
    (reason : String) (trade_counter : Nat) : BacktestTrade :=
  let p := bt_pnl pos exit_price
  { trade_id := trade_counter + 1
    window_id := pos.window_id
    asset := pos.asset
    side := pos.side
    entry_time := pos.entry_time
    entry_price := pos.entry_price
    exit_time := exit_time
    exit_price := exit_price
    exit_reason := reason
    pnl_pct := p.1
    pnl_usd := p.2
    stake_size := pos.stake_size
    outcome := if 0 < p.2 then "WIN" else "LOSS" }

/-- Mutable state of `EnhancedBacktester` across the `run` loop. -/
structure BTState where
  current_position : Option BTPosition
  current_window_id : Option Nat
  trades_this_window : Nat
  trade_counter : Nat
  trades : List BacktestTrade
  equity_curve : List ℚ
deriving DecidableEq

/-- `EnhancedBacktester._close_position` as a state transformer. -/
def bt_close_position (st : BTState) (pos : BTPosition) (exit_time : Nat)
    (exit_price : ℚ) (reason : String) : BTState :=
  let p := bt_pnl pos exit_price
  { st with
    trade_counter := st.trade_counter + 1
    trades := st.trades ++ [bt_close_record pos exit_time exit_price reason st.trade_counter]
    equity_curve := st.equity_curve ++ [p.2]
    current_position := none }

/-- `EnhancedBacktester._settle_position`: settlement at
`prices.get(asset, 0.5)`. -/
def bt_settle_position (st : BTState) (pos : BTPosition) (t : Nat)
    (prices : List (String × ℚ)) (reason : String) : BTState :=
  bt_close_position st pos t ((getQ prices pos.asset).getD (1/2)) reason

/-- The decision part of `EnhancedBacktester._check_exit`: `none` keeps
the position; `some (reason, price)` calls `_close_position`.  Only the
strategy target-exit is consulted — there is no stop-loss check here. -/
def bt_exit_decision (cfg : TraderConfig) (pos : BTPosition)
    (prices : List (String × ℚ)) : Option (String × ℚ) :=
  match getQ prices pos.asset with
  | none => none
  | some current_price =>
    match check_exit cfg pos.side current_price with
    | (true, reason) => some (reason, current_price)
    | (false, _) => none

/-- `EnhancedBacktester._check_exit` as a state transformer. -/
def bt_check_exit_step (cfg : TraderConfig) (st : BTState) (pos : BTPosition)
    (t : Nat) (prices : List (String × ℚ)) : BTState :=
  match bt_exit_decision cfg pos prices with
  | some (reason, price) => bt_close_position st pos t price reason
  | none => st

/-- `EnhancedBacktester._check_entry`. -/
def bt_check_entry (cfg : TraderConfig) (st : BTState) (t : Nat)
    (prices : List (String × ℚ)) : Except Unit BTState :=
  if cfg.max_trades_per_window ≤ st.trades_this_window then .ok st
  else if ¬ (is_entry_eligible cfg.window_duration_minutes t
      cfg.entry_window_max_remaining_seconds
      cfg.entry_window_min_remaining_seconds) then .ok st
  else
    match evaluate_signal cfg (flatSnapshot prices) with
    | .error e => .error e
    | .ok sig =>
      match sig.fired with
      | none => .ok st
      | some f =>
        .ok { st with
          current_position := some
            { window_id := get_window_id cfg.window_duration_minutes t
              asset := f.asset
              side := f.signal
              group_config := f.group_config
              group_assets := f.group_assets
              entry_time := t
              entry_price := f.laggard_price
              group_prices := f.group_prices
              stake_size := cfg.stake_size_usd }
          trades_this_window := st.trades_this_window + 1 }

/-- The body of the `EnhancedBacktester.run` loop for one timestamp:
skip the tick unless every required asset has a price, settle an open
position on a window change, then check entry or exit. -/
def bt_step (cfg : TraderConfig) (st : BTState) (t : Nat)
    (prices : List (String × ℚ)) : Except Unit BTState :=
  if ¬ (cfg.all_assets.all (fun a => (getQ prices a).isSome)) then .ok st
  else
    let wid := get_window_id cfg.window_duration_minutes t
    let st1 :=
      if st.current_window_id ≠ some wid then
        let st0 :=
          match st.current_position with
          | some p => bt_settle_position st p t prices "WINDOW_EXPIRY"
          | none => st
        { st0 with current_window_id := some wid, trades_this_window := 0 }
      else st
    match st1.current_position with
    | none => bt_check_entry cfg st1 t prices
    | some p => .ok (bt_check_exit_step cfg st1 p t prices)

/-! ## Sample data used by concrete instances -/

/-- Sample UP position entered at 0.96 (stop-loss 0.91 = 0.96 − 0.05). -/
def posUp96 : Position :=
  { window_id := some 0, asset := "XRP", side := "UP", entry_time := 0,
    entry_price := 0.96, group_config := "G1", group_assets := ["BTC", "ETH", "SOL"],
    group_prices := [], stake_size := 1, market_id := "", stop_loss_price := 0.91 }

/-- Sample UP position entered at 0.40 with stake 1.0. -/
def posUp40 : Position :=
  { window_id := some 0, asset := "XRP", side := "UP", entry_time := 0,
    entry_price := 0.40, group_config := "G1", group_assets := ["BTC", "ETH", "SOL"],
    group_prices := [], stake_size := 1, market_id := "", stop_loss_price := 0.35 }

/-- Sample DOWN position entered at 0.80 with stake 1.0 (stop-loss 0.85). -/
def posDown80 : Position :=
  { window_id := some 0, asset := "SOL", side := "DOWN", entry_time := 0,
    entry_price := 0.80, group_config := "G2", group_assets := ["BTC", "ETH", "XRP"],
    group_prices := [], stake_size := 1, market_id := "", stop_loss_price := 0.85 }

/-- Backtester counterpart of `posUp40`. -/
def btUp40 : BTPosition :=
  { window_id := 0, asset := "XRP", side := "UP", group_config := "G1",
    group_assets := ["BTC", "ETH", "SOL"], entry_time := 0, entry_price := 0.40,
    group_prices := [], stake_size := 1 }

/-- Backtester counterpart of `posDown80`. -/
def btDown80 : BTPosition :=
  { window_id := 0, asset := "SOL", side := "DOWN", group_config := "G2",
    group_assets := ["BTC", "ETH", "XRP"], entry_time := 0, entry_price := 0.80,
    group_prices := [], stake_size := 1 }

/-- Sample snapshot with the reference group and SOL high and XRP low
(the UP test case of strategy.py). -/
def snapUp : List (String × ℚ) :=
  [("BTC", 0.85), ("ETH", 0.82), ("SOL", 0.79), ("XRP", 0.35)]

/-- The G1 UP signal that `snapUp` produces. -/
def sigG1up : SignalResult :=
  ⟨some ⟨"UP", "XRP", "G1", ["BTC", "ETH", "SOL"],
    [("BTC", 0.85), ("ETH", 0.82), ("SOL", 0.79)], 0.35⟩,
   "Group HIGH, Laggard LOW"⟩

/-- Backtester state with `btUp40` open in window 0 and one trade taken. -/
def stOld : BTState :=
  { current_position := some btUp40, current_window_id := some 0,
    trades_this_window := 1, trade_counter := 1, trades := [], equity_curve := [] }

/-- The WINDOW_EXPIRY settlement trade `stOld` produces at time 1000 on
`snapUp` (XRP settles at 0.35). -/
def btTradeExpiry : BacktestTrade := bt_close_record btUp40 1000 (7/20) "WINDOW_EXPIRY" 1

/-- The backtester state after `bt_step` settles `stOld` at time 1000 on
`snapUp` (no new entry: 800 s remaining is outside the entry window). -/
def stAfterExpiry : BTState :=
  { current_position := none, current_window_id := some 900, trades_this_window := 0,
    trade_counter := 2, trades := [btTradeExpiry], equity_curve := [-(1/20)] }

/-- Idle live-trader state in window 0. -/
def stLive0 : LiveState :=
  { current_position := none, current_window_id := some 0, trades_this_window := 0,
    total_trades := 0, total_pnl := 0, trade_log := [] }

/-- The position the live trader opens at time 700 on `snapUp`
(G1 UP signal on XRP at 0.35, stop-loss 0.30). -/
def qEntered : Position :=
  { window_id := some 0, asset := "XRP", side := "UP", entry_time := 700,
    entry_price := 7/20, group_config := "G1", group_assets := ["BTC", "ETH", "SOL"],
    group_prices := [("BTC", 17/20), ("ETH", 41/50), ("SOL", 79/100)],
    stake_size := 1, market_id := "", stop_loss_price := 3/10 }

/-- The live-trader state after entering `qEntered`. -/
def stLiveAfter : LiveState :=
  { stLive0 with current_position := some qEntered, trades_this_window := 1 }


/-! ## Claims -/

/-- C2: on every tick with an open position the live trader evaluates the
stop-loss before the target-exit: an UP stop-loss triggers exactly when
the current price is ≤ the stop-loss price, a DOWN stop-loss exactly when
it is ≥ the stop-loss price, and whenever the stop-loss condition holds
(in particular when the target-exit condition holds simultaneously) the
exit decision is a close with reason STOP_LOSS. -/
theorem c2_stop_loss_priority (cfg : TraderConfig) (pos : Position)
    (prices : Snapshot) (pv : PriceVal) (c : ℚ)
    (hlook : lookupPrice prices pos.asset = some pv)
    (hc : c = live_current_price pos.side pv) :
    (pos.side = "UP" → check_stop_loss pos c = decide (c ≤ pos.stop_loss_price)) ∧
    (pos.side = "DOWN" → check_stop_loss pos c = decide (pos.stop_loss_price ≤ c)) ∧
    (check_stop_loss pos c = true →
      live_exit_decision cfg pos prices = some ("STOP_LOSS", c)) := by
  refine ⟨fun h => by simp [check_stop_loss, h], fun h => by simp [check_stop_loss, h], fun h => ?_⟩
  simp [live_exit_decision, hlook, ← hc, h]

/-- Witness for C2 at a concrete tick on which the stop-loss condition and
the target-exit condition hold simultaneously (UP entry 0.96, stop-loss
0.91, current price 0.905 ≥ exit threshold 0.90): reason is STOP_LOSS. -/
theorem c2_stop_loss_priority_witness :
    (check_exit default_config "UP" 0.905).1 = true ∧
    live_exit_decision default_config posUp96 [("XRP", PriceVal.flat 0.905)] =
      some ("STOP_LOSS", 0.905) := by
  refine ⟨by simp [check_exit, default_config]; norm_num, ?_⟩
  exact (c2_stop_loss_priority default_config posUp96 [("XRP", PriceVal.flat 0.905)]
    (PriceVal.flat 0.905) 0.905
    (by simp [lookupPrice, posUp96, List.find?])
    (by simp [live_current_price, posUp96])).2.2
    (by simp [check_stop_loss, posUp96]; norm_num)

/-- C4: on every close, the recorded pnl is `(exit − entry) * stake` for
UP and `(entry − exit) * stake` for DOWN, in the live trader and the
backtester alike; in particular an UP close (entry 0.40, stake 1.0,
exit 0.90) records pnl 0.5 with outcome WIN, and a DOWN close (entry
0.80, exit 0.96) records pnl −0.16 with outcome LOSS. -/
theorem c4_pnl_formula (pos : Position) (bpos : BTPosition) (x : ℚ) :
    (pos.side = "UP" → (live_pnl pos x).2 = (x - pos.entry_price) * pos.stake_size) ∧
    (pos.side = "DOWN" → (live_pnl pos x).2 = (pos.entry_price - x) * pos.stake_size) ∧
    (bpos.side = "UP" → (bt_pnl bpos x).2 = (x - bpos.entry_price) * bpos.stake_size) ∧
    (bpos.side = "DOWN" → (bt_pnl bpos x).2 = (bpos.entry_price - x) * bpos.stake_size) ∧
    (live_exit_record posUp40 1 0.90 "TARGET_HIT" 0 0).pnl_usd = 0.5 ∧
    (live_exit_record posUp40 1 0.90 "TARGET_HIT" 0 0).outcome = "WIN" ∧
    (live_exit_record posDown80 1 0.96 "STOP_LOSS" 0 0).pnl_usd = -0.16 ∧
    (live_exit_record posDown80 1 0.96 "STOP_LOSS" 0 0).outcome = "LOSS" ∧
    (bt_close_record btUp40 1 0.90 "TARGET_HIT" 0).pnl_usd = 0.5 ∧
    (bt_close_record btUp40 1 0.90 "TARGET_HIT" 0).outcome = "WIN" ∧
    (bt_close_record btDown80 1 0.96 "STOP_LOSS" 0).pnl_usd = -0.16 ∧
    (bt_close_record btDown80 1 0.96 "STOP_LOSS" 0).outcome = "LOSS" := by
  refine ⟨fun h => by simp [live_pnl, h],
          fun h => by simp [live_pnl, h],
          fun h => by simp [bt_pnl, h],
          fun h => by simp [bt_pnl, h],
          ?_, ?_, ?_, ?_, ?_, ?_, ?_, ?_⟩ <;>
    simp [live_exit_record, bt_close_record, live_pnl, bt_pnl, posUp40, posDown80,
      btUp40, btDown80] <;> norm_num

/-- Witness for C4: the UP formula applied to the concrete position
entered at 0.40 with stake 1.0, exiting at 0.90. -/
theorem c4_pnl_formula_witness :
    posUp40.side = "UP" ∧
    (live_pnl posUp40 0.90).2 = ((0.90 : ℚ) - posUp40.entry_price) * posUp40.stake_size := by
  refine ⟨by simp [posUp40], (c4_pnl_formula posUp40 btUp40 0.90).1 (by simp [posUp40])⟩

/-- C10: a closed trade is recorded with outcome WIN exactly when its
pnl is strictly positive, and a zero-pnl close (exit price = entry
price) is recorded as LOSS, in the live trader and the backtester. -/
theorem c10_outcome_win_iff_positive_pnl (pos : Position) (bpos : BTPosition)
    (t : Nat) (x : ℚ) (r : String) (n : Nat) (cum : ℚ) :
    ((live_exit_record pos t x r n cum).outcome = "WIN" ↔ 0 < (live_pnl pos x).2) ∧
    ((live_pnl pos x).2 = 0 → (live_exit_record pos t x r n cum).outcome = "LOSS") ∧
    ((bt_close_record bpos t x r n).outcome = "WIN" ↔ 0 < (bt_pnl bpos x).2) ∧
    ((bt_pnl bpos x).2 = 0 → (bt_close_record bpos t x r n).outcome = "LOSS") := by
  refine ⟨?_, fun h => by simp [live_exit_record, h], ?_, fun h => by simp [bt_close_record, h]⟩
  · by_cases h : 0 < (live_pnl pos x).2 <;> simp [live_exit_record, h]
  · by_cases h : 0 < (bt_pnl bpos x).2 <;> simp [bt_close_record, h]

/-- Witness for C10: closing `posUp40` exactly at its entry price 0.40
gives pnl 0 and outcome LOSS. -/
theorem c10_outcome_win_iff_positive_pnl_witness :
    (live_exit_record posUp40 1 0.40 "WINDOW_EXPIRY" 0 0).outcome = "LOSS" :=
  (c10_outcome_win_iff_positive_pnl posUp40 btUp40 1 0.40 "WINDOW_EXPIRY" 0 0).2.1
    (by simp [live_pnl, posUp40])

/-- C5: `evaluate_signal` evaluates group G1 before group G2 and returns
the first fired signal: whenever all required assets are present and the
G1 evaluation fires, the overall result is exactly the G1 result,
whatever G2 would have said. -/
theorem c5_group1_priority (cfg : TraderConfig) (s : Snapshot) (t0 t1 : String)
    (g1 : SignalResult)
    (hpresent : (cfg.reference_assets ++ cfg.tradeable_assets).all
      (fun a => (lookupPrice s a).isSome) = true)
    (h0 : cfg.tradeable_assets[0]? = some t0)
    (h1 : cfg.tradeable_assets[1]? = some t1)
    (hg1 : evaluate_group cfg
      (build_up_prices s (cfg.reference_assets ++ cfg.tradeable_assets))
      (cfg.reference_assets ++ [t0]) t1 "G1" = .ok g1)
    (hfired : g1.fired.isSome = true) :
    evaluate_signal cfg s = .ok g1 := by
  simp [evaluate_signal, hpresent, h0, h1, hg1, hfired]

/-- Witness for C5: on `snapUp` (all four assets present, G1 fires UP on
XRP while G2 does not fire) the strategy returns the G1 signal. -/
theorem c5_group1_priority_witness :
    evaluate_signal default_config (flatSnapshot snapUp) = .ok sigG1up := by
  refine c5_group1_priority default_config (flatSnapshot snapUp) "SOL" "XRP" sigG1up
    ?_ (by rfl) (by rfl) ?_ (by simp [sigG1up])
  · simp [default_config, lookupPrice, flatSnapshot, snapUp, List.find?]
  · simp [evaluate_group, collect_group_prices, build_up_prices, getQ, lookupPrice,
      flatSnapshot, snapUp, default_config, all_in_zone, in_zone, upPriceOf,
      sigG1up, List.find?]
    norm_num

/-- C6: a snapshot missing a required asset makes `evaluate_signal`
return the no-signal result on the non-raising path, and a tick on an
open position whose asset has no price makes the exit checks (live and
backtest) return no exit and leave the state untouched. -/
theorem c6_missing_data_is_nonfatal (cfg : TraderConfig) (s s2 : Snapshot)
    (s3 : List (String × ℚ)) (pos : Position) (bpos : BTPosition)
    (st : LiveState) (t : Nat) :
    ((cfg.reference_assets ++ cfg.tradeable_assets).all
        (fun a => (lookupPrice s a).isSome) = false →
      evaluate_signal cfg s = .ok (noSignal "Missing prices")) ∧
    (lookupPrice s2 pos.asset = none →
      live_exit_decision cfg pos s2 = none ∧
      live_check_exit_step cfg st pos t s2 = st) ∧
    (getQ s3 bpos.asset = none → bt_exit_decision cfg bpos s3 = none) := by
  refine ⟨fun h => by simp [evaluate_signal, h], fun h => ?_, fun h => ?_⟩
  · exact ⟨by simp [live_exit_decision, h],
           by simp [live_check_exit_step, live_exit_decision, h]⟩
  · simp [bt_exit_decision, h]

/-- Witness for C6: the empty snapshot is missing every required asset
of the default configuration, and misses the asset of the open position. -/
theorem c6_missing_data_is_nonfatal_witness :
    evaluate_signal default_config [] = .ok (noSignal "Missing prices") ∧
    live_exit_decision default_config posUp40 [] = none := by
  have h := c6_missing_data_is_nonfatal default_config [] [] [] posUp40 btUp40
    { current_position := some posUp40, current_window_id := some 0,
      trades_this_window := 1, total_trades := 0, total_pnl := 0, trade_log := [] } 0
  exact ⟨h.1 (by simp [default_config, lookupPrice]),
         (h.2.1 (by simp [lookupPrice])).1⟩

/-- C7 counterexample: two configurations the claim says must fail at
startup are accepted by validation — a window length of 0 (checked
nowhere), and inverted exit thresholds (exit-up 0.10 below exit-down
0.90: `_validate` checks each threshold against its own range but never
compares the two), each with every other field at its default. -/
theorem c7_counterexample_accepted_configs :
    config_validate { default_config with window_duration_minutes := 0 } = true ∧
    config_validate { default_config with
      exit_up_threshold := 0.10, exit_down_threshold := 0.90 } = true := by
  constructor
  · simp [config_validate, default_config]
    norm_num
  · simp [config_validate, default_config]
    norm_num

/-- C7 (amended): startup validation rejects an out-of-range exit-up
threshold (≤ 0 or > 1), an out-of-range exit-down threshold (< 0 or
≥ 1), an inverted or empty entry-eligibility window, inverted or empty
high/low zones, fewer than two reference assets and fewer than one
tradeable asset; but it never compares the two exit thresholds to each
other and is insensitive to `window_duration_minutes`, so an inverted
exit-threshold pair that is in range, and a non-positive window length,
are not rejected at startup. -/
theorem c7_validate_checks (c : TraderConfig) (n : Nat) :
    (c.exit_up_threshold ≤ 0 → config_validate c = false) ∧
    (1 < c.exit_up_threshold → config_validate c = false) ∧
    (c.exit_down_threshold < 0 → config_validate c = false) ∧
    (1 ≤ c.exit_down_threshold → config_validate c = false) ∧
    (c.entry_window_max_remaining_seconds ≤ c.entry_window_min_remaining_seconds →
      config_validate c = false) ∧
    (c.zone_high_max ≤ c.zone_high_min → config_validate c = false) ∧
    (c.zone_low_max ≤ c.zone_low_min → config_validate c = false) ∧
    (c.reference_assets.length < 2 → config_validate c = false) ∧
    (c.tradeable_assets.length < 1 → config_validate c = false) ∧
    config_validate { c with window_duration_minutes := n } = config_validate c := by
  refine ⟨fun h => by simp [config_validate, not_lt.2 h],
          fun h => by simp [config_validate, not_le.2 h],
          fun h => by simp [config_validate, not_le.2 h],
          fun h => by simp [config_validate, not_lt.2 h],
          fun h => ?_,
          fun h => by simp [config_validate, not_lt.2 h],
          fun h => by simp [config_validate, not_lt.2 h],
          fun h => by have hn : ¬ (2 ≤ c.reference_assets.length) := by omega
                      simp [config_validate, hn],
          fun h => by have hn : ¬ (1 ≤ c.tradeable_assets.length) := by omega
                      simp [config_validate, hn],
          rfl⟩
  have hn : ¬ (c.entry_window_min_remaining_seconds <
      c.entry_window_max_remaining_seconds) := by omega
  simp [config_validate, hn]

/-- Witness for C7 (amended): a configuration with the entry window
inverted (min 300 s, max 90 s) is rejected, and so is one with an
exit-up threshold of 2 (out of range). -/
theorem c7_validate_checks_witness :
    config_validate { default_config with
      entry_window_min_remaining_seconds := 300,
      entry_window_max_remaining_seconds := 90 } = false ∧
    config_validate { default_config with exit_up_threshold := 2 } = false :=
  ⟨(c7_validate_checks { default_config with
      entry_window_min_remaining_seconds := 300,
      entry_window_max_remaining_seconds := 90 } 15).2.2.2.2.1 (by decide),
   (c7_validate_checks { default_config with exit_up_threshold := 2 } 15).2.1
     (by norm_num [default_config])⟩

/-- Lookup in a flattened snapshot is lookup in the flat dict. -/
theorem lookup_flatSnapshot (s : List (String × ℚ)) (a : String) :
    lookupPrice (flatSnapshot s) a = (getQ s a).map PriceVal.flat := by
  induction s with
  | nil => rfl
  | cons kv rest ih =>
    by_cases h : kv.1 == a
    · simp [flatSnapshot, lookupPrice, getQ, List.find?_cons, h]
    · simp [flatSnapshot, lookupPrice, getQ, List.find?_cons, h]
      simpa [flatSnapshot, lookupPrice, getQ] using ih

/-- C1 counterexample: replaying the same flat snapshot (asset price
0.30) against the same open UP position (entry 0.40, stop-loss 0.35),
the live driver closes with STOP_LOSS while the backtest driver keeps
the position open — `EnhancedBacktester._check_exit` has no stop-loss
check, so the two drivers do not make identical close decisions. -/
theorem c1_counterexample_stop_loss_divergence :
    live_exit_decision default_config posUp40 (flatSnapshot [("XRP", 0.30)]) =
      some ("STOP_LOSS", 0.30) ∧
    bt_exit_decision default_config btUp40 [("XRP", 0.30)] = none := by
  constructor
  · simp [live_exit_decision, lookupPrice, flatSnapshot, List.find?, posUp40,
      live_current_price, check_stop_loss]
    norm_num
  · simp [bt_exit_decision, getQ, List.find?, btUp40, check_exit, default_config]
    norm_num

/-- C1 (amended): on any tick with an open position and a flat snapshot,
the live and backtest exit checks agree whenever the live stop-loss
condition does not hold at the snapshot price; the divergence is exactly
the stop-loss check that the backtester lacks. -/
theorem c1_exit_decisions_agree_without_stop_loss (cfg : TraderConfig)
    (pos : Position) (bpos : BTPosition) (s : List (String × ℚ))
    (hasset : pos.asset = bpos.asset) (hside : pos.side = bpos.side)
    (hsl : ∀ c, getQ s pos.asset = some c → check_stop_loss pos c = false) :
    live_exit_decision cfg pos (flatSnapshot s) = bt_exit_decision cfg bpos s := by
  rw [live_exit_decision, bt_exit_decision, lookup_flatSnapshot, ← hasset]
  cases hq : getQ s pos.asset with
  | none => rfl
  | some c =>
    simp only [Option.map_some, live_current_price, hside]
    cases hce : check_exit cfg bpos.side c with
    | mk b r =>
      cases b <;> simp [hsl c hq, hside, hce]

/-- Witness for C1 (amended): on a tick where the stop-loss does not
fire (price 0.92 against stop-loss 0.35), both drivers decide the same
TARGET_HIT close. -/
theorem c1_exit_decisions_agree_witness :
    live_exit_decision default_config posUp40 (flatSnapshot [("XRP", 0.92)]) =
      bt_exit_decision default_config btUp40 [("XRP", 0.92)] ∧
    bt_exit_decision default_config btUp40 [("XRP", 0.92)] =
      some ("TARGET_HIT", 0.92) := by
  constructor
  · refine c1_exit_decisions_agree_without_stop_loss default_config posUp40 btUp40
      [("XRP", 0.92)] (by simp [posUp40, btUp40]) (by simp [posUp40, btUp40])
      (fun c hc => ?_)
    simp [getQ, List.find?, posUp40] at hc
    subst hc
    simp [check_stop_loss, posUp40]
    norm_num
  · simp [bt_exit_decision, getQ, List.find?, btUp40, check_exit, default_config]
    norm_num

/-- C8: the window id is a pure function of the timestamp and the
configured duration: any two timestamps inside one computed window get
the same id, and moving a timestamp forward by exactly one window
duration always changes the id (duration positive and dividing the
hour, as the minute-of-hour flooring scheme presupposes). -/
theorem c8_window_id_deterministic (d t1 t2 t : Nat) (hd : 0 < d) (hdvd : d ∣ 60)
    (hlo : (get_current_window d t1).1 ≤ t2)
    (hhi : t2 < (get_current_window d t1).2) :
    get_window_id d t2 = get_window_id d t1 ∧
    get_window_id d (t + d * 60) ≠ get_window_id d t := by
  simp only [get_window_id, get_current_window, minuteOfHour] at *
  have hle : d ≤ 60 := Nat.le_of_dvd (by norm_num) hdvd
  interval_cases d <;> omega

/-- Witness for C8 at the configured 15-minute duration: 100 s and 0 s
lie in the same window, and stepping 42 s forward by 900 s lands in a
different window. -/
theorem c8_window_id_deterministic_witness :
    get_window_id 15 100 = get_window_id 15 0 ∧
    get_window_id 15 (42 + 15 * 60) ≠ get_window_id 15 42 :=
  c8_window_id_deterministic 15 0 100 42 (by decide) (by decide) (by decide) (by decide)

/-- What `bt_check_entry` can do to the state: the trade list, window id
and totals are untouched, and either everything else is untouched too or
a position was opened — in the current window, at the current tick, with
both entry guards (trade counter, time eligibility) satisfied. -/
theorem bt_check_entry_spec (cfg : TraderConfig) (st : BTState) (t : Nat)
    (prices : List (String × ℚ)) (stA : BTState)
    (h : bt_check_entry cfg st t prices = .ok stA) :
    stA.trades = st.trades ∧ stA.current_window_id = st.current_window_id ∧
    ((stA.current_position = st.current_position ∧
      stA.trades_this_window = st.trades_this_window) ∨
     (st.trades_this_window < cfg.max_trades_per_window ∧
      is_entry_eligible cfg.window_duration_minutes t
        cfg.entry_window_max_remaining_seconds
        cfg.entry_window_min_remaining_seconds = true ∧
      ∃ f : FiredSignal, stA.current_position = some
        { window_id := get_window_id cfg.window_duration_minutes t,
          asset := f.asset, side := f.signal, group_config := f.group_config,
          group_assets := f.group_assets, entry_time := t,
          entry_price := f.laggard_price, group_prices := f.group_prices,
          stake_size := cfg.stake_size_usd } ∧
        stA.trades_this_window = st.trades_this_window + 1)) := by
  unfold bt_check_entry at h
  split at h
  · injection h with h
    subst h
    exact ⟨rfl, rfl, Or.inl ⟨rfl, rfl⟩⟩
  · split at h
    · injection h with h
      subst h
      exact ⟨rfl, rfl, Or.inl ⟨rfl, rfl⟩⟩
    · split at h
      · exact absurd h (by simp)
      · split at h
        · injection h with h
          subst h
          exact ⟨rfl, rfl, Or.inl ⟨rfl, rfl⟩⟩
        · injection h with h
          subst h
          refine ⟨rfl, rfl, Or.inr ⟨by omega, by tauto, _, rfl, rfl⟩⟩

/-- What `live_check_entry` can do to the state: the trade log, window
id and totals are untouched, and either the position slot and counter
are untouched or a position was opened — tagged with the current stored
window id, at the current tick, with both entry guards satisfied. -/
theorem live_check_entry_spec (cfg : TraderConfig) (st : LiveState) (t : Nat)
    (prices : Snapshot) (stB : LiveState)
    (h : live_check_entry cfg st t prices = .ok stB) :
    stB.trade_log = st.trade_log ∧ stB.current_window_id = st.current_window_id ∧
    ((stB.current_position = st.current_position ∧
      stB.trades_this_window = st.trades_this_window) ∨
     (st.trades_this_window < cfg.max_trades_per_window ∧
      is_entry_eligible cfg.window_duration_minutes t
        cfg.entry_window_max_remaining_seconds
        cfg.entry_window_min_remaining_seconds = true ∧
      ∃ f : FiredSignal, stB.current_position = some
        { window_id := st.current_window_id,
          asset := f.asset, side := f.signal, entry_time := t,
          entry_price := f.laggard_price, group_config := f.group_config,
          group_assets := f.group_assets, group_prices := f.group_prices,
          stake_size := cfg.stake_size_usd, market_id := "",
          stop_loss_price :=
            calculate_stop_loss cfg.stop_loss_pct f.signal f.laggard_price } ∧
        stB.trades_this_window = st.trades_this_window + 1)) := by
  unfold live_check_entry at h
  split at h
  · injection h with h
    subst h
    exact ⟨rfl, rfl, Or.inl ⟨rfl, rfl⟩⟩
  · split at h
    · injection h with h
      subst h
      exact ⟨rfl, rfl, Or.inl ⟨rfl, rfl⟩⟩
    · split at h
      · exact absurd h (by simp)
      · split at h
        · injection h with h
          subst h
          exact ⟨rfl, rfl, Or.inl ⟨rfl, rfl⟩⟩
        · injection h with h
          subst h
          refine ⟨rfl, rfl, Or.inr ⟨by omega, by tauto, _, rfl, rfl⟩⟩

/-- `live_check_exit_step` either keeps the position slot unchanged or
clears it; it never installs a different position. -/
theorem live_check_exit_spec (cfg : TraderConfig) (st : LiveState) (pos : Position)
    (t : Nat) (prices : Snapshot) :
    (live_check_exit_step cfg st pos t prices).current_position = st.current_position ∨
    (live_check_exit_step cfg st pos t prices).current_position = none := by
  unfold live_check_exit_step
  split
  · exact Or.inr rfl
  · exact Or.inl rfl

/-- C3 counterexample: on a tick whose snapshot is missing required
assets, `EnhancedBacktester.run` skips the tick (`continue`) before the
window check, so a position from window 0 stays open on a tick of
window 900 and is not force-closed there — the claim that a differing
window id always forces a WINDOW_EXPIRY close fails at this input. -/
theorem c3_counterexample_skipped_tick_keeps_stale_position :
    bt_step default_config stOld 1000 [("BTC", 0.5)] = .ok stOld ∧
    stOld.current_position = some btUp40 ∧
    get_window_id default_config.window_duration_minutes 1000 ≠ btUp40.window_id := by
  refine ⟨?_, rfl, by simp [default_config, get_window_id, get_current_window,
    minuteOfHour, btUp40]⟩
  simp [bt_step, default_config, getQ, List.find?]

/-- C3 (amended): on every processed tick whose window id differs from
the stored one — every tick in the live trader, and in the backtester
every tick whose snapshot carries all required assets — an open position
is force-closed with reason WINDOW_EXPIRY before any entry is
considered, at the snapshot price of its asset when available, otherwise
at the neutral backtest default 0.5 respectively the side-dependent live
default (1.0 for UP, 0.0 for DOWN); any position open
after the step belongs to the window of the tick. -/
theorem c3_window_expiry_settlement (cfg : TraderConfig) (st : BTState)
    (st2 : LiveState) (t : Nat) (prices feed : List (String × ℚ))
    (p : BTPosition) (q : Position) (stA : BTState) (stB : LiveState) :
    (bt_step cfg st t prices = .ok stA →
     cfg.all_assets.all (fun a => (getQ prices a).isSome) = true →
     st.current_position = some p →
     st.current_window_id ≠ some (get_window_id cfg.window_duration_minutes t) →
     (∃ tr, stA.trades = st.trades ++ [tr] ∧ tr.exit_reason = "WINDOW_EXPIRY" ∧
        tr.asset = p.asset ∧ tr.exit_price = (getQ prices p.asset).getD (1/2)) ∧
     (∀ r, stA.current_position = some r →
        r.window_id = get_window_id cfg.window_duration_minutes t)) ∧
    (live_step cfg st2 t feed = .ok stB →
     st2.current_position = some q →
     st2.current_window_id ≠ some (get_window_id cfg.window_duration_minutes t) →
     (∃ tr, stB.trade_log = st2.trade_log ++ [tr] ∧ tr.exit_reason = "WINDOW_EXPIRY" ∧
        tr.asset = q.asset ∧ tr.exit_price = live_settle_price q feed) ∧
     (∀ r, stB.current_position = some r →
        r.window_id = some (get_window_id cfg.window_duration_minutes t))) := by
  constructor
  · intro hstep hall hpos hwin
    unfold bt_step at hstep
    simp only [ne_eq] at hstep
    rw [if_neg (not_not_intro hall), if_pos hwin, hpos] at hstep
    simp only [bt_settle_position, bt_close_position] at hstep
    obtain ⟨htr, hwid, hcase⟩ := bt_check_entry_spec _ _ _ _ _ hstep
    refine ⟨⟨bt_close_record p t ((getQ prices p.asset).getD (1/2)) "WINDOW_EXPIRY"
      st.trade_counter, by simpa using htr, rfl, rfl, rfl⟩, fun r hr => ?_⟩
    rcases hcase with ⟨hsame, _⟩ | ⟨_, _, f, hopen, _⟩
    · rw [hsame] at hr
      simp at hr
    · rw [hopen] at hr
      injection hr with hr
      subst hr
      rfl
  · intro hstep hpos hwin
    unfold live_step at hstep
    simp only [ne_eq] at hstep
    rw [if_pos hwin, hpos] at hstep
    simp only [live_settle_position, live_exit_position] at hstep
    obtain ⟨htr, hwid, hcase⟩ := live_check_entry_spec _ _ _ _ _ hstep
    refine ⟨⟨live_exit_record q t (live_settle_price q feed) "WINDOW_EXPIRY"
      st2.total_trades st2.total_pnl, by simpa using htr, rfl, rfl, rfl⟩,
      fun r hr => ?_⟩
    rcases hcase with ⟨hsame, _⟩ | ⟨_, _, f, hopen, _⟩
    · rw [hsame] at hr
      simp at hr
    · rw [hopen] at hr
      injection hr with hr
      subst hr
      simp at hwid
      simp [hwid]
/-- Witness for C3 (amended): settling `stOld` (position from window 0)
on the complete snapshot `snapUp` at time 1000 (window 900) appends a
WINDOW_EXPIRY trade at the XRP snapshot price and leaves no stale
position. -/
theorem c3_window_expiry_settlement_witness :
    (∃ tr, stAfterExpiry.trades = stOld.trades ++ [tr] ∧
      tr.exit_reason = "WINDOW_EXPIRY" ∧ tr.asset = btUp40.asset ∧
      tr.exit_price = (getQ snapUp btUp40.asset).getD (1/2)) ∧
    (∀ r, stAfterExpiry.current_position = some r →
      r.window_id = get_window_id default_config.window_duration_minutes 1000) :=
  (c3_window_expiry_settlement default_config stOld stLive0 1000 snapUp snapUp
    btUp40 posUp40 stAfterExpiry stLive0).1
    (by
      simp [bt_step, default_config, stOld, snapUp, getQ, List.find?, get_window_id,
        get_current_window, minuteOfHour, bt_settle_position, bt_close_position,
        bt_check_entry, is_entry_eligible, get_time_remaining, stAfterExpiry,
        btTradeExpiry, bt_close_record, bt_pnl, btUp40]
      norm_num)
    (by decide) rfl (by decide)

/-- Step equation: same window, position open — the cycle runs the exit
check. -/
theorem live_step_same_window_exit (cfg : TraderConfig) (st : LiveState)
    (t : Nat) (feed : List (String × ℚ)) (p : Position)
    (hw : st.current_window_id = some (get_window_id cfg.window_duration_minutes t))
    (hpos : st.current_position = some p) :
    live_step cfg st t feed = .ok (live_check_exit_step cfg st p t
      (List.map (fun kv => (kv.1, PriceVal.options kv.2 (1 - kv.2))) feed)) := by
  simp only [live_step, ne_eq, hw, hpos, not_true_eq_false, if_false]

/-- Step equation: same window, no position — the cycle runs the entry
check. -/
theorem live_step_same_window_entry (cfg : TraderConfig) (st : LiveState)
    (t : Nat) (feed : List (String × ℚ))
    (hw : st.current_window_id = some (get_window_id cfg.window_duration_minutes t))
    (hpos : st.current_position = none) :
    live_step cfg st t feed = live_check_entry cfg st t
      (List.map (fun kv => (kv.1, PriceVal.options kv.2 (1 - kv.2))) feed) := by
  simp only [live_step, ne_eq, hw, hpos, not_true_eq_false, if_false]

/-- Step equation: new window, position open — settle it, reset the
counter, then run the entry check on the settled state. -/
theorem live_step_new_window_open (cfg : TraderConfig) (st : LiveState)
    (t : Nat) (feed : List (String × ℚ)) (p : Position)
    (hw : st.current_window_id ≠ some (get_window_id cfg.window_duration_minutes t))
    (hpos : st.current_position = some p) :
    live_step cfg st t feed = live_check_entry cfg
      { live_settle_position st p t feed "WINDOW_EXPIRY" with
        current_window_id := some (get_window_id cfg.window_duration_minutes t),
        trades_this_window := 0 } t
      (List.map (fun kv => (kv.1, PriceVal.options kv.2 (1 - kv.2))) feed) := by
  simp only [live_step, ne_eq, hpos, if_pos hw, live_settle_position,
    live_exit_position]

/-- Step equation: new window, no position — reset the counter, then
run the entry check. -/
theorem live_step_new_window_idle (cfg : TraderConfig) (st : LiveState)
    (t : Nat) (feed : List (String × ℚ))
    (hw : st.current_window_id ≠ some (get_window_id cfg.window_duration_minutes t))
    (hpos : st.current_position = none) :
    live_step cfg st t feed = live_check_entry cfg
      { st with
        current_window_id := some (get_window_id cfg.window_duration_minutes t),
        trades_this_window := 0 } t
      (List.map (fun kv => (kv.1, PriceVal.options kv.2 (1 - kv.2))) feed) := by
  simp only [live_step, ne_eq, hpos, if_pos hw]

/-- C9: the live trader holds at most one position — on a tick with a
position open in the current window the slot afterwards holds that same
position or none, never a different one — and an open transition
happens only into a free slot (no position, or the old one settled at
the window change), with the per-window trade counter strictly below
the maximum and the window clock reporting entry eligibility. -/
theorem c9_single_position_entry_guards (cfg : TraderConfig) (st : LiveState)
    (t : Nat) (feed : List (String × ℚ)) (stB : LiveState) (q : Position) :
    (live_step cfg st t feed = .ok stB →
     ∀ p, st.current_position = some p →
     st.current_window_id = some (get_window_id cfg.window_duration_minutes t) →
     stB.current_position = some p ∨ stB.current_position = none) ∧
    (live_step cfg st t feed = .ok stB →
     stB.current_position = some q →
     q.entry_time = t →
     (∀ p, st.current_position = some p → p.entry_time ≠ t) →
     (if st.current_window_id = some (get_window_id cfg.window_duration_minutes t)
        then st.trades_this_window else 0) < cfg.max_trades_per_window ∧
     is_entry_eligible cfg.window_duration_minutes t
       cfg.entry_window_max_remaining_seconds
       cfg.entry_window_min_remaining_seconds = true ∧
     (st.current_position = none ∨
      st.current_window_id ≠ some (get_window_id cfg.window_duration_minutes t))) := by
  constructor
  · intro hstep p hpos hwin
    rw [live_step_same_window_exit cfg st t feed p hwin hpos] at hstep
    injection hstep with hstep
    subst hstep
    rcases live_check_exit_spec cfg st p t
        (List.map (fun kv => (kv.1, PriceVal.options kv.2 (1 - kv.2))) feed) with h | h
    · exact Or.inl (h.trans hpos)
    · exact Or.inr h
  · intro hstep hq hqt hold
    by_cases hw : st.current_window_id = some (get_window_id cfg.window_duration_minutes t)
    · cases hpos : st.current_position with
      | some p =>
        rw [live_step_same_window_exit cfg st t feed p hw hpos] at hstep
        injection hstep with hstep
        subst hstep
        rcases live_check_exit_spec cfg st p t
            (List.map (fun kv => (kv.1, PriceVal.options kv.2 (1 - kv.2))) feed) with h | h
        · rw [h, hpos] at hq
          injection hq with hq
          exact absurd (hq ▸ hqt) (hold p hpos)
        · rw [h] at hq
          cases hq
      | none =>
        rw [live_step_same_window_entry cfg st t feed hw hpos] at hstep
        obtain ⟨_, _, hcase⟩ := live_check_entry_spec _ _ _ _ _ hstep
        rcases hcase with ⟨hsamep, _⟩ | ⟨hcnt, helig, f, hopen, _⟩
        · rw [hsamep, hpos] at hq
          cases hq
        · exact ⟨by rw [if_pos hw]; exact hcnt, helig, Or.inl rfl⟩
    · cases hpos : st.current_position with
      | some p =>
        rw [live_step_new_window_open cfg st t feed p hw hpos] at hstep
        obtain ⟨_, _, hcase⟩ := live_check_entry_spec _ _ _ _ _ hstep
        rcases hcase with ⟨hsamep, _⟩ | ⟨hcnt, helig, f, hopen, _⟩
        · rw [hsamep] at hq
          simp [live_settle_position, live_exit_position] at hq
        · exact ⟨by rw [if_neg hw]; simpa using hcnt, helig, Or.inr hw⟩
      | none =>
        rw [live_step_new_window_idle cfg st t feed hw hpos] at hstep
        obtain ⟨_, _, hcase⟩ := live_check_entry_spec _ _ _ _ _ hstep
        rcases hcase with ⟨hsamep, _⟩ | ⟨hcnt, helig, f, hopen, _⟩
        · rw [hsamep] at hq
          simp [hpos] at hq
        · exact ⟨by rw [if_neg hw]; simpa using hcnt, helig, Or.inr hw⟩

/-- Witness for C9: the idle state `stLive0` in window 0 at the eligible
time 700 s opens `qEntered` on `snapUp`, so the entry guards were
satisfied (counter 0 < 1, entry eligible, slot free). -/
theorem c9_single_position_entry_guards_witness :
    (if stLive0.current_window_id =
        some (get_window_id default_config.window_duration_minutes 700)
      then stLive0.trades_this_window else 0) < default_config.max_trades_per_window ∧
    is_entry_eligible default_config.window_duration_minutes 700
      default_config.entry_window_max_remaining_seconds
      default_config.entry_window_min_remaining_seconds = true ∧
    (stLive0.current_position = none ∨
     stLive0.current_window_id ≠
       some (get_window_id default_config.window_duration_minutes 700)) :=
  (c9_single_position_entry_guards default_config stLive0 700 snapUp stLiveAfter
    qEntered).2
    (by
      simp [live_step, default_config, stLive0, snapUp, get_window_id,
        get_current_window, minuteOfHour, live_check_entry, is_entry_eligible,
        get_time_remaining, evaluate_signal, lookupPrice, List.find?,
        build_up_prices, evaluate_group, collect_group_prices, getQ, all_in_zone,
        in_zone, upPriceOf, calculate_stop_loss, stLiveAfter, qEntered]
      norm_num)
    rfl rfl
    (fun p hp => by simp [stLive0] at hp)
